import Mathlib

/-!
Verification of the hue-cli command-line client (src/main.rs) against its
natural-language specification.  The Rust source is shallowly embedded:
each effectful collaborator call (bridge HTTP call, UPnP discovery,
config-file merge) is replaced by an explicit input describing the
collaborator's responses, and each function of main.rs becomes a pure
Lean function over those inputs.  Rust integer division is Nat division
(truncating); a Rust division by zero, which panics, is modelled as
`Option.none`; the `as u16` cast is `% 65536`.
-/

namespace HueCli

/-! ### Registration loop (main.rs, register_loop, lines 229-248)

One call to philipshue's `bridge::register_user` either returns a user
token, fails with the bridge error `LinkButtonNotPressed`, or fails with
any other error.  A run of the loop is driven by the finite trace of
responses the bridge gives to successive calls. -/

/-- One response of the bridge to a `register_user` call. -/
inductive RegisterResponse where
  | ok (user : String)
  | linkButtonNotPressed
  | otherError (msg : String)
deriving DecidableEq, Repr

/-- Embedding of `register_loop`: consume the trace of bridge responses,
returning the loop's result together with the number of retries performed
and the total seconds slept (the source sleeps `Duration::from_secs(5)`
before every retry).  `none` means the trace was exhausted with the loop
still running (the real loop would keep calling the bridge). -/
def register_loop : List RegisterResponse → Option (Except String String × Nat × Nat)
  | [] => none
  | .ok u :: _ => some (.ok u, 0, 0)
  | .linkButtonNotPressed :: rest =>
      (register_loop rest).map (fun r => (r.1, r.2.1 + 1, r.2.2 + 5))
  | .otherError e :: _ =>
      some (.error ("Unexpected error occured: " ++ e), 0, 0)

/-! ### Config resolution (main.rs, or_config line 152-155, load_config
lines 122-131, main lines 133-150) -/

/-- Embedding of `or_config`: the CLI-supplied value `v1` wins when
present, otherwise the config-file value `v2` is used
(`v1.as_ref().map(|s| s.to_string()).or(v2)`). -/
def or_config (v1 : Option String) (v2 : Option String) : Option String :=
  (v1.map (fun s => s)).or v2

/-- The errors `config::Config::merge` can produce, as distinguished by
the match in `load_config`: `NotFound` (missing file), `Foreign`
(the wrapped parser failure for an unparseable file), and every other
variant collapsed into `otherErr`. -/
inductive ConfigError where
  | notFound (msg : String)
  | foreign (msg : String)
  | otherErr (msg : String)
deriving DecidableEq, Repr

/-- The resolved config data the program reads back: the two recognized
keys `bridge` and `user`. -/
structure Config where
  bridge : Option String
  user : Option String
deriving DecidableEq, Repr

/-- Embedding of `no_config`: `config::Config::new()`, the empty config. -/
def no_config : Config := ⟨none, none⟩

/-- Embedding of `load_config`: the outcome of merging the config file is
the input; `NotFound` and `Foreign` errors are mapped to the empty
config, any other error is returned as an error. -/
def load_config (mergeResult : Except ConfigError Config) :
    Except ConfigError Config :=
  match mergeResult with
  | .ok c => .ok c
  | .error (.notFound _) => .ok no_config
  | .error (.foreign _) => .ok no_config
  | .error e => .error e

/-- What `main` does with the result of `load_config`
(main.rs lines 146-149): dispatch on success, print a
"Configuration error" message and exit normally on error. -/
inductive MainOutcome where
  | dispatched (conf : Config)
  | printedConfigError (e : ConfigError)
deriving DecidableEq, Repr

/-- Embedding of the `match conf` at the end of `main`. -/
def main_config_step (r : Except ConfigError Config) : MainOutcome :=
  match r with
  | .ok c => .dispatched c
  | .error e => .printedConfigError e

/-! ### Discovery (main.rs, discover, lines 182-186)

`discover` calls `bridge::discover_upnp().unwrap()` — `unwrap` panics on
a transport error — then calls `Vec::dedup`, which removes only
*consecutive* repeated elements, and prints the result. -/

/-- Embedding of Rust's `Vec::dedup`: remove consecutive repeated
elements, keeping the first of each run. -/
def rust_dedup {α : Type} [DecidableEq α] : List α → List α
  | [] => []
  | [a] => [a]
  | a :: b :: rest =>
      if a = b then rust_dedup (b :: rest) else a :: rust_dedup (b :: rest)

/-- Observable outcome of the `discover` subcommand: either it prints the
list of addresses, or the process panics (via `unwrap`) with the
transport error. -/
inductive DiscoverOutcome where
  | printed (addrs : List String)
  | panicked (err : String)
deriving DecidableEq, Repr

/-- Embedding of `discover`, driven by the result of the
`bridge::discover_upnp()` transport call. -/
def discover (transport : Except String (List String)) : DiscoverOutcome :=
  match transport with
  | .ok ips => .printed (rust_dedup ips)
  | .error e => .panicked e

/-! ### Light control (main.rs, light_set lines 259-286, lights_get_all
lines 288-318, lights_get lines 320-353)

Rust `u32` division panics when the divisor is zero; `u32_div` returns
`none` in that case.  `(... ) as u16` truncates to 16 bits, i.e. `% 65536`. -/

/-- Rust `u32 / u32`: `none` models the division-by-zero panic. -/
def u32_div (a b : Nat) : Option Nat :=
  if b = 0 then none else some (a / b)

/-- Embedding of the set-side conversion at main.rs line 278:
`(10000000u32 / ct) as u16`. -/
def ct_to_mired (k : Nat) : Option Nat :=
  (u32_div 10000000 k).map (fun m => m % 65536)

/-- Embedding of the display-side conversion at main.rs lines 309-310 and
344-345: `1000000u32 / ct as u32` applied to the stored mired value. -/
def mired_to_kelvin (m : Nat) : Option Nat :=
  u32_div 1000000 m

/-- Rounding division, `round(a / b)` for positive `b` — the conversion
the specification claims for the set side. -/
def round_div (a b : Nat) : Nat :=
  (a + b / 2) / b

/-- The `OnOff` CLI argument (`--turn on|off`). -/
inductive OnOff where
  | «on»
  | «off»
deriving DecidableEq, Repr

/-- `cmd.on()` sets the command's on-field to true, `cmd.off()` to
false. -/
def onOffBool : OnOff → Bool
  | .«on» => true
  | .«off» => false

/-- The optional CLI state flags of the `light` subcommand
(struct `LightState` in main.rs): `--turn`, `--bri`, `--hue`, `--sat`,
`--ct`. -/
structure LightStateArgs where
  turn : Option OnOff
  bri : Option Nat
  hue : Option Nat
  sat : Option Nat
  ct : Option Nat
deriving DecidableEq, Repr

/-- The sparse philipshue `LightCommand` as far as light_set populates
it: every field optional, absent fields are not sent to the bridge. -/
structure HueLightCommand where
  «on» : Option Bool
  bri : Option Nat
  hue : Option Nat
  sat : Option Nat
  ct : Option Nat
deriving DecidableEq, Repr

/-- `LightCommand::default()`: all fields absent. -/
def LightCommand_default : HueLightCommand :=
  ⟨none, none, none, none, none⟩

/-- Embedding of the command-building part of `light_set` (main.rs lines
262-279): start from the default command and set exactly the fields
whose CLI option is present, converting `--ct` from Kelvin to mired.
`none` models the division-by-zero panic when `--ct 0` is given. -/
def light_set_cmd (state : LightStateArgs) : Option HueLightCommand :=
  let cmd := LightCommand_default
  let cmd := match state.turn with
    | some .«on» => { cmd with «on» := some true }
    | some .«off» => { cmd with «on» := some false }
    | none => cmd
  let cmd := match state.bri with
    | some bri => { cmd with bri := some bri }
    | none => cmd
  let cmd := match state.hue with
    | some hue => { cmd with hue := some hue }
    | none => cmd
  let cmd := match state.sat with
    | some sat => { cmd with sat := some sat }
    | none => cmd
  match state.ct with
  | some ct => (ct_to_mired ct).map (fun m => { cmd with ct := some m })
  | none => some cmd

/-! ### All-lights table (main.rs, lights_get_all, lines 288-299) -/

/-- Embedding of the name-column width computation:
`lights.values().map(|l| l.name.len()).chain(Some(4)).max().unwrap()`. -/
def max_name_len (names : List String) : Nat :=
  ((names.map String.length) ++ [4]).foldr Nat.max 0

end HueCli

namespace HueCli

/-- `rust_dedup` keeps the first element of a nonempty list. -/
theorem rust_dedup_head {α : Type} [DecidableEq α] (a : α) (l : List α) :
    (rust_dedup (a :: l)).head? = some a := by
  induction l generalizing a with
  | nil => rfl
  | cons b rest ih =>
      by_cases h : a = b
      · rw [rust_dedup, if_pos h, ih b, h]
      · rw [rust_dedup, if_neg h, List.head?_cons]

/-- After `rust_dedup` no two adjacent elements are equal. -/
theorem rust_dedup_chain {α : Type} [DecidableEq α] (l : List α) :
    (rust_dedup l).Chain' (fun a b => a ≠ b) := by
  induction l with
  | nil => exact List.chain'_nil
  | cons a t ih =>
      cases t with
      | nil => exact List.chain'_singleton a
      | cons b rest =>
          by_cases h : a = b
          · rw [rust_dedup, if_pos h]; exact ih
          · rw [rust_dedup, if_neg h, List.chain'_cons']
            refine ⟨?_, ih⟩
            intro y hy
            rw [rust_dedup_head b rest] at hy
            rw [Option.mem_def, Option.some_inj] at hy
            subst hy
            exact h

/-- `rust_dedup` returns a sublist: order is preserved and nothing new
appears. -/
theorem rust_dedup_sublist {α : Type} [DecidableEq α] (l : List α) :
    (rust_dedup l).Sublist l := by
  induction l with
  | nil => exact List.Sublist.refl []
  | cons a t ih =>
      cases t with
      | nil => exact List.Sublist.refl [a]
      | cons b rest =>
          by_cases h : a = b
          · rw [rust_dedup, if_pos h]
            exact List.sublist_cons_of_sublist a ih
          · rw [rust_dedup, if_neg h]
            exact List.Sublist.cons₂ a ih

/-- **C1.** For every execution of the registration loop in which the
bridge returns link-button-not-pressed exactly N times and then succeeds
with token `u`, the loop performs exactly N retries, sleeps the fixed 5
seconds before each of them (5·N seconds in total), and returns the
issued user token on attempt N+1. -/
theorem register_loop_retries (N : Nat) (u : String) :
    register_loop (List.replicate N .linkButtonNotPressed ++ [.ok u]) =
      some (.ok u, N, 5 * N) := by
  induction N with
  | zero => rfl
  | succ n ih =>
      rw [List.replicate_succ, List.cons_append]
      have step : register_loop (.linkButtonNotPressed ::
            (List.replicate n .linkButtonNotPressed ++ [.ok u])) =
          (register_loop (List.replicate n .linkButtonNotPressed ++ [.ok u])).map
            (fun r => (r.1, r.2.1 + 1, r.2.2 + 5)) := rfl
      rw [step, ih]
      simp [Nat.mul_succ]

/-- **C2.** If the bridge's first response is an error other than
link-button-not-pressed, the loop returns that error immediately as
fatal: zero retries, zero seconds waited, whatever the bridge would have
answered afterwards. -/
theorem register_loop_fatal (e : String) (rest : List RegisterResponse) :
    register_loop (.otherError e :: rest) =
      some (.error ("Unexpected error occured: " ++ e), 0, 0) := rfl

/-- **C6.** For every pair of optional strings, the resolved value is the
CLI value when present, else the config value (which covers both the
present and the absent config case). -/
theorem or_config_resolution :
    (∀ (s : String) (v2 : Option String), or_config (some s) v2 = some s) ∧
    (∀ v2 : Option String, or_config none v2 = v2) := by
  constructor
  · intro s v2; rfl
  · intro v2; cases v2 <;> rfl

/-- **C7.** Loading the config file returns the empty config (`Ok`) when
the file is not found or is unparseable, so dispatch proceeds; any other
load error is returned as an error, and `main` then prints a
configuration-error message instead of dispatching. -/
theorem load_config_policy (msg : String) :
    load_config (.error (.notFound msg)) = .ok no_config ∧
    load_config (.error (.foreign msg)) = .ok no_config ∧
    load_config (.error (.otherErr msg)) = .error (.otherErr msg) ∧
    main_config_step (load_config (.error (.notFound msg))) =
      .dispatched no_config ∧
    main_config_step (load_config (.error (.foreign msg))) =
      .dispatched no_config ∧
    main_config_step (load_config (.error (.otherErr msg))) =
      .printedConfigError (.otherErr msg) := by
  refine ⟨rfl, rfl, rfl, rfl, rfl, rfl⟩

/-- **C4, counterexample.** The claim that the presented list never
contains duplicates fails: `Vec::dedup` removes only consecutive
repeats, so for the transport result
["10.0.0.1", "10.0.0.2", "10.0.0.1"] the presented list still contains
"10.0.0.1" twice. -/
theorem discover_dedup_counterexample :
    discover (.ok ["10.0.0.1", "10.0.0.2", "10.0.0.1"]) =
      .printed ["10.0.0.1", "10.0.0.2", "10.0.0.1"] ∧
    ¬ (["10.0.0.1", "10.0.0.2", "10.0.0.1"] : List String).Nodup := by
  exact ⟨by decide, by decide⟩

/-- **C4, amended.** For every list of addresses returned by the
discovery transport, the list presented by the discover command has no
two *adjacent* equal addresses and is a sublist of the transport result
(order-preserving, nothing added); in particular, for transport result
["10.0.0.1", "10.0.0.1", "10.0.0.2"] the presented list is
["10.0.0.1", "10.0.0.2"]. -/
theorem discover_dedup_amended :
    (∀ ips : List String, ∃ out, discover (.ok ips) = .printed out ∧
        out.Chain' (fun a b => a ≠ b) ∧ out.Sublist ips) ∧
    discover (.ok ["10.0.0.1", "10.0.0.1", "10.0.0.2"]) =
      .printed ["10.0.0.1", "10.0.0.2"] := by
  refine ⟨fun ips => ⟨rust_dedup ips, rfl, rust_dedup_chain ips,
    rust_dedup_sublist ips⟩, by decide⟩

/-- **C5, counterexample.** When the discovery transport fails, the
discover command does not print anything: on the concrete failure
"network unreachable" the outcome is not a printed list. -/
theorem discover_failure_counterexample :
    ¬ ∃ out, discover (.error "network unreachable") = .printed out := by
  rintro ⟨out, h⟩
  simp [discover] at h

/-- **C5, amended.** When the discovery transport fails, the discover
command panics via `unwrap` with the underlying transport error
(abnormal termination with a panic message), instead of printing a
message and exiting normally. -/
theorem discover_failure_amended (e : String) :
    discover (.error e) = .panicked e := rfl

/-- The initial value bounds a max-fold from below. -/
theorem foldr_max_init (l : List Nat) (b : Nat) : b ≤ l.foldr Nat.max b := by
  induction l with
  | nil => exact Nat.le_refl b
  | cons a t ih => exact Nat.le_trans ih (Nat.le_max_right a _)

/-- Every member bounds a max-fold from below. -/
theorem foldr_max_mem (l : List Nat) (b x : Nat) (hx : x ∈ l) :
    x ≤ l.foldr Nat.max b := by
  induction l with
  | nil => cases hx
  | cons a t ih =>
      rcases List.mem_cons.mp hx with rfl | hx2
      · exact Nat.le_max_left x _
      · exact Nat.le_trans (ih hx2) (Nat.le_max_right a _)

/-- A max-fold is the initial value or one of the members. -/
theorem foldr_max_cases (l : List Nat) (b : Nat) :
    l.foldr Nat.max b = b ∨ ∃ x ∈ l, l.foldr Nat.max b = x := by
  induction l with
  | nil => exact Or.inl rfl
  | cons a t ih =>
      have hfold : (a :: t).foldr Nat.max b = max a (t.foldr Nat.max b) := rfl
      rw [hfold]
      rcases max_choice a (t.foldr Nat.max b) with h | h
      · rw [h]
        exact Or.inr ⟨a, List.mem_cons_self a t, rfl⟩
      · rw [h]
        rcases ih with hb | ⟨x, hx, hEq⟩
        · exact Or.inl hb
        · exact Or.inr ⟨x, List.mem_cons_of_mem a hx, hEq⟩

/-- The chained 4 turns the fold's base case into 4. -/
theorem max_name_len_eq (names : List String) :
    max_name_len names = (names.map String.length).foldr Nat.max 4 := by
  rw [max_name_len, List.foldr_append]
  have h4 : List.foldr Nat.max 0 [4] = 4 := by decide
  rw [h4]

/-- **C8.** The name-column width of the all-lights table is the maximum
of all light-name lengths with a floor of 4: it is at least 4, at least
every name's length, and is either 4 or attained by some name; for names
of lengths 2, 7, 3 it is 7, and for an empty light set it is 4. -/
theorem max_name_len_spec :
    (∀ names : List String, 4 ≤ max_name_len names ∧
        (∀ n ∈ names, n.length ≤ max_name_len names) ∧
        (max_name_len names = 4 ∨ ∃ n ∈ names, max_name_len names = n.length)) ∧
    max_name_len ["ab", "abcdefg", "abc"] = 7 ∧
    max_name_len [] = 4 := by
  refine ⟨fun names => ?_, by decide, by decide⟩
  rw [max_name_len_eq]
  refine ⟨foldr_max_init _ _, ?_, ?_⟩
  · intro n hn
    exact foldr_max_mem _ _ _ (List.mem_map_of_mem String.length hn)
  · rcases foldr_max_cases (names.map String.length) 4 with h | ⟨x, hx, hEq⟩
    · exact Or.inl h
    · rcases List.mem_map.mp hx with ⟨n, hn, rfl⟩
      exact Or.inr ⟨n, hn, hEq⟩

/-- Witness for C8 at the concrete light set of the claim. -/
theorem max_name_len_spec_witness :
    String.length "abcdefg" ≤ max_name_len ["ab", "abcdefg", "abc"] :=
  (max_name_len_spec.1 ["ab", "abcdefg", "abc"]).2.1 "abcdefg" (by decide)

/-- With a nonzero Kelvin argument, the built command carries the
truncated, 16-bit-cast mired value. -/
theorem light_set_cmd_ct (k : Nat) (hk : k ≠ 0) :
    light_set_cmd ⟨none, none, none, none, some k⟩ =
      some ⟨none, none, none, none, some (10000000 / k % 65536)⟩ := by
  have hct : ct_to_mired k = some (10000000 / k % 65536) := by
    simp [ct_to_mired, u32_div, hk]
  change Option.map _ (ct_to_mired k) = _
  rw [hct]
  rfl

/-- **C3, counterexample.** The claim that `--ct K` sends
`round(10_000_000 / K)` fails at K = 2700: the code truncates,
sending 3703, while rounding would give 3704. -/
theorem ct_round_counterexample :
    light_set_cmd ⟨none, none, none, none, some 2700⟩ =
      some ⟨none, none, none, none, some 3703⟩ ∧
    round_div 10000000 2700 = 3704 ∧ (3703 : Nat) ≠ 3704 := by
  refine ⟨by decide, by decide, by decide⟩

/-- **C3, amended.** Setting color temperature with `--ct K` (K ≥ 1)
sends mired = floor(10_000_000 / K) truncated to 16 bits, and displaying
a light whose stored mired value is M ≥ 1 shows
Kelvin = floor(1_000_000 / M); the two conversions use the distinct
scale constants 10,000,000 and 1,000,000 and are not mutual inverses:
2700 maps to 3703, which displays back as 270. -/
theorem ct_conversions_amended :
    (∀ k, 1 ≤ k → ∃ cmd, light_set_cmd ⟨none, none, none, none, some k⟩ =
        some cmd ∧ cmd.ct = some (10000000 / k % 65536)) ∧
    (∀ m, 1 ≤ m → mired_to_kelvin m = some (1000000 / m)) ∧
    ct_to_mired 2700 = some 3703 ∧ mired_to_kelvin 3703 = some 270 ∧
    (270 : Nat) ≠ 2700 := by
  refine ⟨fun k hk => ⟨_, light_set_cmd_ct k (Nat.pos_iff_ne_zero.mp hk), rfl⟩,
    fun m hm => ?_, by decide, by decide, by decide⟩
  simp [mired_to_kelvin, u32_div, Nat.pos_iff_ne_zero.mp hm]

/-- Witness for the amended C3 at K = 2700 and M = 3703. -/
theorem ct_conversions_amended_witness :
    (∃ cmd, light_set_cmd ⟨none, none, none, none, some 2700⟩ = some cmd ∧
        cmd.ct = some (10000000 / 2700 % 65536)) ∧
    mired_to_kelvin 3703 = some (1000000 / 3703) :=
  ⟨ct_conversions_amended.1 2700 (by decide),
    ct_conversions_amended.2.1 3703 (by decide)⟩

/-- **C9.** The light command built by the light subcommand has a field
set if and only if the corresponding CLI option was provided (assuming
the Kelvin argument, if given, is nonzero so the build does not panic):
on/off mirrors `--turn`, brightness, hue and saturation carry the given
values, and color temperature carries the converted mired value. -/
theorem light_set_cmd_fields (s : LightStateArgs) (h : s.ct ≠ some 0) :
    ∃ cmd, light_set_cmd s = some cmd ∧
      cmd.«on» = s.turn.map onOffBool ∧
      cmd.bri = s.bri ∧ cmd.hue = s.hue ∧ cmd.sat = s.sat ∧
      cmd.ct = s.ct.map (fun k => 10000000 / k % 65536) := by
  obtain ⟨t, b, hu, sa, c⟩ := s
  rcases c with _ | k
  · refine ⟨_, rfl, ?_, ?_, ?_, ?_, ?_⟩ <;>
      rcases t with _ | t <;> (try cases t) <;> rcases b with _ | b <;>
      rcases hu with _ | hu <;> rcases sa with _ | sa <;> rfl
  · have hk : k ≠ 0 := fun h0 => h (by rw [h0])
    have hct : ct_to_mired k = some (10000000 / k % 65536) := by
      simp [ct_to_mired, u32_div, hk]
    rcases t with _ | t <;> (try cases t) <;> rcases b with _ | b <;>
      rcases hu with _ | hu <;> rcases sa with _ | sa <;>
      exact ⟨_, by change Option.map _ (ct_to_mired k) = _; rw [hct]; rfl,
        rfl, rfl, rfl, rfl, rfl⟩

/-- Witness for C9: given only `--bri 100`, the built command has
brightness 100 and every other field absent. -/
theorem light_set_cmd_fields_witness :
    ∃ cmd, light_set_cmd ⟨none, some 100, none, none, none⟩ = some cmd ∧
      cmd.«on» = none ∧
      cmd.bri = some 100 ∧ cmd.hue = none ∧ cmd.sat = none ∧
      cmd.ct = none :=
  light_set_cmd_fields ⟨none, some 100, none, none, none⟩ (by decide)

/-- **C10.** The color-temperature divisions are unguarded against zero:
building a light command from `--ct 0` hits a division by zero (a
panic), as does displaying a light whose stored mired value is 0; with
arguments at least 1 both conversions evaluate safely. -/
theorem ct_division_by_zero :
    light_set_cmd ⟨none, none, none, none, some 0⟩ = none ∧
    mired_to_kelvin 0 = none ∧
    (∀ k, 1 ≤ k → (ct_to_mired k).isSome = true) ∧
    (∀ m, 1 ≤ m → (mired_to_kelvin m).isSome = true) := by
  refine ⟨rfl, rfl, fun k hk => ?_, fun m hm => ?_⟩
  · simp [ct_to_mired, u32_div, Nat.pos_iff_ne_zero.mp hk]
  · simp [mired_to_kelvin, u32_div, Nat.pos_iff_ne_zero.mp hm]

/-- Witness for C10 at `--ct 0`, mired 0, and the safe inputs 2700 and
3703. -/
theorem ct_division_by_zero_witness :
    light_set_cmd ⟨none, none, none, none, some 0⟩ = none ∧
    mired_to_kelvin 0 = none ∧
    (ct_to_mired 2700).isSome = true ∧
    (mired_to_kelvin 3703).isSome = true :=
  ⟨ct_division_by_zero.1, ct_division_by_zero.2.1,
    ct_division_by_zero.2.2.1 2700 (by decide),
    ct_division_by_zero.2.2.2 3703 (by decide)⟩

end HueCli
